import Mathlib

/-!
Shallow embedding of the V2EX API client core (`src/v2ex.py`).

JSON payloads are modelled by the inductive `Json`; the network is modelled
by `HttpResult` oracles (one per request).  The pydantic models become Lean
structures with explicit validators returning `Except V2exError`.  Field
decoding is exact-typed (an `int` field accepts a JSON integer, a `str`
field a JSON string, and so on); pydantic's lax numeric-string coercions
are outside the payload shapes this development reasons about and none of
the properties below depends on them.  Machine integers are modelled as
unbounded `Int`, matching Python semantics.
-/

set_option maxHeartbeats 1000000

/-- JSON values delivered by the wire protocol. -/
inductive Json where
  | null
  | bool (b : Bool)
  | int (n : Int)
  | str (s : String)
  | arr (items : List Json)
  | obj (kvs : List (String × Json))
  deriving Repr

/-- First-match lookup in an association list, as in a Python dict built
from unique keys. -/
def lookupKvs : List (String × Json) → String → Option Json
  | [], _ => none
  | kv :: rest, k => if kv.1 = k then some kv.2 else lookupKvs rest k

/-- Key lookup on a JSON value; only objects hold keys. -/
def Json.lookup : Json → String → Option Json
  | .obj kvs, k => lookupKvs kvs k
  | _, _ => none

/-- Whether the JSON value is an object (a Python `dict`). -/
def Json.isObj : Json → Bool
  | .obj _ => true
  | _ => false

/-- The error kinds of the client: `httpError` models
`response.raise_for_status()` on a non-2xx status, `netError` a transport
exception, `apiError` the `RuntimeError` raised by `_ensure_success`, and
`validationError` a pydantic `ValidationError`. -/
inductive V2exError where
  | httpError (status : Nat)
  | netError
  | apiError (message : String)
  | validationError
  deriving Repr, DecidableEq

/-- Decode a required `int` field from its looked-up value. -/
def reqInt : Option Json → Except V2exError Int
  | some (.int n) => .ok n
  | _ => .error .validationError

/-- Decode a required `bool` field from its looked-up value. -/
def reqBool : Option Json → Except V2exError Bool
  | some (.bool b) => .ok b
  | _ => .error .validationError

/-- Decode an `Optional[str]` field (absent or `null` becomes `none`). -/
def optStr : Option Json → Except V2exError (Option String)
  | none => .ok none
  | some .null => .ok none
  | some (.str s) => .ok (some s)
  | some _ => .error .validationError

/-- Decode an `Optional[int]` field (absent or `null` becomes `none`). -/
def optInt : Option Json → Except V2exError (Option Int)
  | none => .ok none
  | some .null => .ok none
  | some j => (reqInt (some j)).map some

/-- Decode an optional nested model with validator `f`. -/
def optWith (f : Json → Except V2exError α) : Option Json → Except V2exError (Option α)
  | none => .ok none
  | some .null => .ok none
  | some j => (f j).map some

/-- Decode a required nested model with validator `f`. -/
def reqWith (f : Json → Except V2exError α) : Option Json → Except V2exError α
  | some j => f j
  | none => .error .validationError

/-- Decode each element of a JSON array with validator `f`. -/
def decodeEach (f : Json → Except V2exError α) : List Json → Except V2exError (List α)
  | [] => .ok []
  | j :: rest => do
    let x ← f j
    let xs ← decodeEach f rest
    .ok (x :: xs)

/-- Decode a `list[...]` field with `default_factory=list`: absent becomes
`[]`, a non-array value (including `null`) is rejected. -/
def listOf (f : Json → Except V2exError α) : Option Json → Except V2exError (List α)
  | none => .ok []
  | some (.arr xs) => decodeEach f xs
  | some _ => .error .validationError

/-- Decode a `list[Any]` field with `default_factory=list`. -/
def listAny : Option Json → Except V2exError (List Json)
  | none => .ok []
  | some (.arr xs) => .ok xs
  | some _ => .error .validationError

/-- The `Member` pydantic model. -/
structure Member where
  id : Int
  username : Option String
  name : Option String
  bio : Option String
  website : Option String
  github : Option String
  url : Option String
  avatar : Option String
  created : Option Int
  pro : Option Int
  deriving Repr, DecidableEq

/-- Declared field names of `Member`. -/
def Member.fields : List String :=
  ["id", "username", "name", "bio", "website", "github", "url", "avatar", "created", "pro"]

/-- `Member.model_validate`: `id` is required, the rest optional; unknown
keys are ignored (`extra="ignore"`). -/
def Member.validate (j : Json) : Except V2exError Member :=
  if j.isObj then do
    let id ← reqInt (j.lookup "id")
    let username ← optStr (j.lookup "username")
    let name ← optStr (j.lookup "name")
    let bio ← optStr (j.lookup "bio")
    let website ← optStr (j.lookup "website")
    let github ← optStr (j.lookup "github")
    let url ← optStr (j.lookup "url")
    let avatar ← optStr (j.lookup "avatar")
    let created ← optInt (j.lookup "created")
    let pro ← optInt (j.lookup "pro")
    .ok ⟨id, username, name, bio, website, github, url, avatar, created, pro⟩
  else .error .validationError

/-- The `Node` pydantic model. -/
structure Node where
  id : Int
  url : Option String
  name : Option String
  title : Option String
  header : Option String
  footer : Option String
  avatar : Option String
  topics : Option Int
  created : Option Int
  last_modified : Option Int
  deriving Repr, DecidableEq

/-- Declared field names of `Node`. -/
def Node.fields : List String :=
  ["id", "url", "name", "title", "header", "footer", "avatar", "topics", "created", "last_modified"]

/-- `Node.model_validate`. -/
def Node.validate (j : Json) : Except V2exError Node :=
  if j.isObj then do
    let id ← reqInt (j.lookup "id")
    let url ← optStr (j.lookup "url")
    let name ← optStr (j.lookup "name")
    let title ← optStr (j.lookup "title")
    let header ← optStr (j.lookup "header")
    let footer ← optStr (j.lookup "footer")
    let avatar ← optStr (j.lookup "avatar")
    let topics ← optInt (j.lookup "topics")
    let created ← optInt (j.lookup "created")
    let last_modified ← optInt (j.lookup "last_modified")
    .ok ⟨id, url, name, title, header, footer, avatar, topics, created, last_modified⟩
  else .error .validationError

/-- The `Topic` pydantic model.  `synField` models the source field whose
wire name is the JSON key given in `Topic.fields` between
`content_rendered` and `url` (the name is a Lean keyword). -/
structure Topic where
  id : Int
  title : Option String
  content : Option String
  content_rendered : Option String
  synField : Option Int
  url : Option String
  replies : Option Int
  last_reply_by : Option String
  created : Option Int
  created_at : Option Int
  last_modified : Option Int
  last_touched : Option Int
  member : Option Member
  node : Option Node
  node_id : Option Int
  supplements : List Json
  deriving Repr

/-- Declared field names of `Topic`. -/
def Topic.fields : List String :=
  ["id", "title", "content", "content_rendered", "syntax", "url", "replies",
   "last_reply_by", "created", "created_at", "last_modified", "last_touched",
   "member", "node", "node_id", "supplements"]

/-- `Topic.model_validate`. -/
def Topic.validate (j : Json) : Except V2exError Topic :=
  if j.isObj then do
    let id ← reqInt (j.lookup "id")
    let title ← optStr (j.lookup "title")
    let content ← optStr (j.lookup "content")
    let content_rendered ← optStr (j.lookup "content_rendered")
    let synField ← optInt (j.lookup "syntax")
    let url ← optStr (j.lookup "url")
    let replies ← optInt (j.lookup "replies")
    let last_reply_by ← optStr (j.lookup "last_reply_by")
    let created ← optInt (j.lookup "created")
    let created_at ← optInt (j.lookup "created_at")
    let last_modified ← optInt (j.lookup "last_modified")
    let last_touched ← optInt (j.lookup "last_touched")
    let member ← optWith Member.validate (j.lookup "member")
    let node ← optWith Node.validate (j.lookup "node")
    let node_id ← optInt (j.lookup "node_id")
    let supplements ← listAny (j.lookup "supplements")
    .ok ⟨id, title, content, content_rendered, synField, url, replies, last_reply_by,
         created, created_at, last_modified, last_touched, member, node, node_id, supplements⟩
  else .error .validationError

/-- The `Reply` pydantic model. -/
structure Reply where
  id : Int
  content : Option String
  content_rendered : Option String
  created : Option Int
  created_at : Option Int
  member : Option Member
  deriving Repr, DecidableEq

/-- Declared field names of `Reply`. -/
def Reply.fields : List String :=
  ["id", "content", "content_rendered", "created", "created_at", "member"]

/-- `Reply.model_validate`. -/
def Reply.validate (j : Json) : Except V2exError Reply :=
  if j.isObj then do
    let id ← reqInt (j.lookup "id")
    let content ← optStr (j.lookup "content")
    let content_rendered ← optStr (j.lookup "content_rendered")
    let created ← optInt (j.lookup "created")
    let created_at ← optInt (j.lookup "created_at")
    let member ← optWith Member.validate (j.lookup "member")
    .ok ⟨id, content, content_rendered, created, created_at, member⟩
  else .error .validationError

/-- The `Pagination` pydantic model: all three fields required. -/
structure Pagination where
  per_page : Int
  total : Int
  pages : Int
  deriving Repr, DecidableEq

/-- Declared field names of `Pagination`. -/
def Pagination.fields : List String :=
  ["per_page", "total", "pages"]

/-- `Pagination.model_validate`. -/
def Pagination.validate (j : Json) : Except V2exError Pagination :=
  if j.isObj then do
    let per_page ← reqInt (j.lookup "per_page")
    let total ← reqInt (j.lookup "total")
    let pages ← reqInt (j.lookup "pages")
    .ok ⟨per_page, total, pages⟩
  else .error .validationError

/-- The `ApiResponse` envelope model: required `success`, optional `message`. -/
structure ApiResponse where
  success : Bool
  message : Option String
  deriving Repr, DecidableEq

/-- Declared field names of `ApiResponse`. -/
def ApiResponse.fields : List String :=
  ["success", "message"]

/-- `ApiResponse.model_validate`. -/
def ApiResponse.validate (j : Json) : Except V2exError ApiResponse :=
  if j.isObj then do
    let success ← reqBool (j.lookup "success")
    let message ← optStr (j.lookup "message")
    .ok ⟨success, message⟩
  else .error .validationError

/-- The `TopicResponse` envelope: inherits `success`/`message` and adds a
required `result : Topic`. -/
structure TopicResponse where
  success : Bool
  message : Option String
  result : Topic
  deriving Repr

/-- Declared field names of `TopicResponse`. -/
def TopicResponse.fields : List String :=
  ["success", "message", "result"]

/-- `TopicResponse.model_validate`. -/
def TopicResponse.validate (j : Json) : Except V2exError TopicResponse :=
  if j.isObj then do
    let success ← reqBool (j.lookup "success")
    let message ← optStr (j.lookup "message")
    let result ← reqWith Topic.validate (j.lookup "result")
    .ok ⟨success, message, result⟩
  else .error .validationError

/-- The `RepliesResponse` envelope: `result` defaults to `[]`, `pagination`
is optional metadata. -/
structure RepliesResponse where
  success : Bool
  message : Option String
  result : List Reply
  pagination : Option Pagination
  deriving Repr

/-- Declared field names of `RepliesResponse`. -/
def RepliesResponse.fields : List String :=
  ["success", "message", "result", "pagination"]

/-- `RepliesResponse.model_validate`. -/
def RepliesResponse.validate (j : Json) : Except V2exError RepliesResponse :=
  if j.isObj then do
    let success ← reqBool (j.lookup "success")
    let message ← optStr (j.lookup "message")
    let result ← listOf Reply.validate (j.lookup "result")
    let pagination ← optWith Pagination.validate (j.lookup "pagination")
    .ok ⟨success, message, result, pagination⟩
  else .error .validationError

/-- Python truthiness of an optional string (`message or default`): `None`
and the empty string are falsy. -/
def pyOrElse (m : Option String) (d : String) : String :=
  match m with
  | none => d
  | some s => if s = "" then d else s

/-- `_ensure_success`: validate the payload as an `ApiResponse` and fail
with the server message (or the fixed default) when `success` is false. -/
def ensure_success (payload : Json) : Except V2exError Unit :=
  match ApiResponse.validate payload with
  | .error e => .error e
  | .ok r => if r.success then .ok () else .error (.apiError (pyOrElse r.message "V2EX API error"))

/-- Python slice `text[:stop]` for a possibly negative `stop`, on code
points. -/
def pySliceTo (s : String) (stop : Int) : String :=
  (s.toList.take (if stop < 0 then ((s.length : Int) + stop).toNat else stop.toNat)).asString

/-- `_truncate`: return `text` unchanged when no bound is given or the
code-point length is within the bound, else `text[: max_chars - 3]`
followed by the three-character marker. -/
def truncate (text : String) (max_chars : Option Int) : String :=
  match max_chars with
  | none => text
  | some m => if (text.length : Int) ≤ m then text else pySliceTo text (m - 3) ++ "..."

/-- The characters removed by Python `str.strip()` (ASCII whitespace; the
payloads in scope contain no exotic Unicode spaces). -/
def isPySpace (c : Char) : Bool :=
  c = ' ' || c = '\t' || c = '\n' || c = '\r' || c = '\x0b' || c = '\x0c'

/-- Python `str.strip()`: drop leading and trailing whitespace. -/
def pyStrip (s : String) : String :=
  (((s.toList.dropWhile isPySpace).reverse.dropWhile isPySpace).reverse).asString

/-- The dynamic values fed to `_pick_first` at its call sites: strings and
integers. -/
inductive PyVal where
  | str (s : String)
  | int (n : Int)
  deriving Repr, DecidableEq

/-- Python `str(value)` at the types that reach `_pick_first`. -/
def PyVal.toStr : PyVal → String
  | .str s => s
  | .int n => toString n

/-- `_pick_first`: the first candidate that is neither `None` nor a
whitespace-only string, converted with `str`; else the default. -/
def pick_first (values : List (Option PyVal)) (dflt : String) : String :=
  match values with
  | [] => dflt
  | none :: rest => pick_first rest dflt
  | some (.str s) :: rest => if pyStrip s = "" then pick_first rest dflt else s
  | some (.int n) :: _ => toString n

/-- One HTTP exchange as seen by the client: either a transport failure or
a response with a status code and a parsed JSON body. -/
inductive HttpResult where
  | netError
  | response (status : Nat) (body : Json)

/-- httpx `response.is_success`: the 2xx range (outside it,
`raise_for_status` raises). -/
def is2xx (status : Nat) : Bool :=
  200 ≤ status && status < 300

/-- `V2EXClient.fetch_topic`, with the network call abstracted to the
`HttpResult` it produces: raise for a non-2xx status, check the envelope,
then decode `result` as a `Topic`. -/
def fetch_topic (resp : HttpResult) : Except V2exError Topic :=
  match resp with
  | .netError => .error .netError
  | .response status body =>
    if is2xx status then
      match ensure_success body with
      | .error e => .error e
      | .ok _ => (TopicResponse.validate body).map TopicResponse.result
    else .error (.httpError status)

/-- The per-page body of the `fetch_replies` loop: raise for a non-2xx
status, check the envelope, then decode `result` as a list of `Reply`. -/
def processPage (resp : HttpResult) : Except V2exError (List Reply) :=
  match resp with
  | .netError => .error .netError
  | .response status body =>
    if is2xx status then
      match ensure_success body with
      | .error e => .error e
      | .ok _ => (RepliesResponse.validate body).map RepliesResponse.result
    else .error (.httpError status)

/-- The `while page <= max_pages` loop of `fetch_replies`.  `pages p` is
the HTTP exchange for `?p={page}`; the fuel counts the remaining loop
iterations (`max_pages - page + 1`).  Returns the accumulated replies
together with the number of page requests issued. -/
def fetchRepliesAux (pages : Nat → HttpResult) (max_replies : Option Nat)
    (page : Nat) (acc : List Reply) (count : Nat) : Nat → Except V2exError (List Reply × Nat)
  | 0 => .ok (acc, count)
  | fuel + 1 =>
    match processPage (pages page) with
    | .error e => .error e
    | .ok data =>
      if data.isEmpty then .ok (acc, count + 1)
      else
        let acc' := acc ++ data
        match max_replies with
        | some m =>
          if m ≤ acc'.length then .ok (acc'.take m, count + 1)
          else fetchRepliesAux pages max_replies (page + 1) acc' (count + 1) fuel
        | none => fetchRepliesAux pages max_replies (page + 1) acc' (count + 1) fuel

/-- `V2EXClient.fetch_replies` instrumented with the number of requests
issued. -/
def fetchRepliesTrace (pages : Nat → HttpResult) (max_pages : Nat)
    (max_replies : Option Nat) : Except V2exError (List Reply × Nat) :=
  fetchRepliesAux pages max_replies 1 [] 0 max_pages

/-- `V2EXClient.fetch_replies`: the reply list alone. -/
def fetch_replies (pages : Nat → HttpResult) (max_pages : Nat)
    (max_replies : Option Nat) : Except V2exError (List Reply) :=
  (fetchRepliesTrace pages max_pages max_replies).map Prod.fst

/-- `V2EXClient.format_topic`. -/
def format_topic (topic : Topic) (max_chars : Option Int) : String :=
  let title := pick_first [topic.title.map PyVal.str] ""
  let content := pick_first [topic.content.map PyVal.str, topic.content_rendered.map PyVal.str] ""
  let node := pick_first
    [(topic.node.bind Node.title).map PyVal.str,
     (topic.node.bind Node.name).map PyVal.str,
     topic.node_id.map PyVal.int] ""
  let author := pick_first
    [(topic.member.bind Member.username).map PyVal.str,
     (topic.member.bind Member.name).map PyVal.str,
     (topic.member.map Member.id).map PyVal.int] ""
  let created := pick_first [topic.created.map PyVal.int, topic.created_at.map PyVal.int] ""
  pyStrip (String.intercalate "\n"
    ["Title: " ++ title,
     "Author: " ++ author,
     "Node: " ++ node,
     "Created: " ++ created,
     "Content:\n" ++ truncate content max_chars])

/-- One numbered block of `format_replies` (`idx` is the 1-based index). -/
def replyBlock (idx : Nat) (reply : Reply) (max_chars : Option Int) : String :=
  let author := pick_first
    [(reply.member.bind Member.username).map PyVal.str,
     (reply.member.bind Member.name).map PyVal.str,
     (reply.member.map Member.id).map PyVal.int] ""
  let created := pick_first [reply.created.map PyVal.int, reply.created_at.map PyVal.int] ""
  let content := pick_first [reply.content.map PyVal.str, reply.content_rendered.map PyVal.str] ""
  String.intercalate "\n"
    ["[" ++ toString idx ++ "] Author: " ++ author,
     "Created: " ++ created,
     "Content:\n" ++ truncate content max_chars]

/-- `V2EXClient.format_replies`. -/
def format_replies (replies : List Reply) (max_chars : Option Int) : String :=
  pyStrip (String.intercalate "\n\n" (replies.enum.map (fun p => replyBlock (p.1 + 1) p.2 max_chars)))

/-- Python `text or placeholder` on strings. -/
def pyOr (s d : String) : String :=
  if s = "" then d else s

/-- `V2EXClient.build_bundle`, with the two network interactions abstracted
to the topic exchange and the per-page exchanges: fetch the topic, fetch
all reply pages with no reply cap, format both untruncated and join the
fixed template. -/
def build_bundle (topicResp : HttpResult) (pages : Nat → HttpResult) (max_pages : Nat) :
    Except V2exError String :=
  match fetch_topic topicResp with
  | .error e => .error e
  | .ok topic =>
    match fetch_replies pages max_pages none with
    | .error e => .error e
    | .ok replies =>
      .ok (pyStrip (String.intercalate "\n\n"
        ["文章内容（主题）:",
         pyOr (format_topic topic none) "N/A",
         "",
         "评论:",
         pyOr (format_replies replies none) "No replies."]))

/-- Modelled from the spec: the truncation rule as the spec words it, with
`the first k code points` read as a non-negative prefix (`List.take`
clamps a negative count to zero).  Compared against `truncate` below. -/
def claimTruncate (text : String) (max_chars : Option Int) : String :=
  match max_chars with
  | none => text
  | some m =>
    if (text.length : Int) ≤ m then text
    else (text.toList.take (m - 3).toNat).asString ++ "..."

/-- A `_pick_first` candidate that is consumed rather than skipped: present
and not a whitespace-only string. -/
def usableVal : Option PyVal → Bool
  | none => false
  | some (.str s) => !(pyStrip s == "")
  | some (.int _) => true

/-- Modelled from the spec: the pagination schedule the spec describes, on
abstract page contents `L` (page `p` holds the replies `L p`).  Pages are
taken in order starting at 1; the walk stops when the next page number
would exceed `max_pages`, when a page is empty, or when the accumulated
count reaches `max_replies` (truncating to exactly `max_replies`).
Returns the replies and the number of pages consulted. -/
def specFetchAux (L : Nat → List Reply) (max_replies : Option Nat)
    (page : Nat) (acc : List Reply) (count : Nat) : Nat → List Reply × Nat
  | 0 => (acc, count)
  | fuel + 1 =>
    let data := L page
    if data.isEmpty then (acc, count + 1)
    else
      let acc' := acc ++ data
      match max_replies with
      | some m =>
        if m ≤ acc'.length then (acc'.take m, count + 1)
        else specFetchAux L max_replies (page + 1) acc' (count + 1) fuel
      | none => specFetchAux L max_replies (page + 1) acc' (count + 1) fuel

/-- Modelled from the spec: entry point of the abstract pagination walk. -/
def specFetchReplies (L : Nat → List Reply) (max_pages : Nat)
    (max_replies : Option Nat) : List Reply × Nat :=
  specFetchAux L max_replies 1 [] 0 max_pages

/-- Total number of replies on the `k` consecutive pages starting at
`start`. -/
def sumLens (L : Nat → List Reply) (start k : Nat) : Nat :=
  ((List.range k).map (fun i => (L (start + i)).length)).sum

/-- Two HTTP exchanges that agree except possibly in the `pagination`
metadata of their bodies; on both sides the metadata (when present) is
well-formed. -/
def pageEquiv : HttpResult → HttpResult → Prop
  | .netError, .netError => True
  | .netError, .response _ _ => False
  | .response _ _, .netError => False
  | .response s b, .response s' b' =>
      s = s' ∧ b.isObj = b'.isObj ∧
      (∀ k, k ≠ "pagination" → b.lookup k = b'.lookup k) ∧
      (optWith Pagination.validate (b.lookup "pagination")).isOk = true ∧
      (optWith Pagination.validate (b'.lookup "pagination")).isOk = true

/-- A minimal reply payload with the given id. -/
def replyJson (i : Nat) : Json :=
  .obj [("id", .int i)]

/-- The reply that `replyJson i` decodes to. -/
def mkReply (i : Nat) : Reply :=
  ⟨(i : Int), none, none, none, none, none⟩

/-- A successful replies-page body holding the replies with the given
ids. -/
def pageBody (ids : List Nat) : Json :=
  .obj [("success", .bool true), ("result", .arr (ids.map (fun i => replyJson i)))]

/-- Concrete pagination scenario of the spec: pages of sizes 20, 20, 0. -/
def c1pages : Nat → HttpResult := fun p =>
  if p = 1 then .response 200 (pageBody (List.range 20))
  else if p = 2 then .response 200 (pageBody (List.range' 20 20))
  else .response 200 (pageBody [])

/-- The abstract page contents of `c1pages`. -/
def c1L : Nat → List Reply := fun p =>
  if p = 1 then (List.range 20).map mkReply
  else if p = 2 then (List.range' 20 20).map mkReply
  else []

/-- Envelope with `success: false` and a server message. -/
def c2body : Json :=
  .obj [("success", .bool false), ("message", .str "Rate limited")]

/-- Pages whose every request yields a 500 status. -/
def c6pages : Nat → HttpResult := fun _ => .response 500 Json.null

/-- A successful topic envelope with a titled topic. -/
def c7topicBody : Json :=
  .obj [("success", .bool true), ("result", .obj [("id", .int 1), ("title", .str "Hello")])]

/-- The topic exchange of the `build_bundle` witness scenario. -/
def c7tr : HttpResult := .response 200 c7topicBody

/-- Reply pages of the `build_bundle` witness scenario: page 1 is empty. -/
def c7pages : Nat → HttpResult := fun _ => .response 200 (pageBody [])

/-- The topic that `c7topicBody` decodes to. -/
def c7topic : Topic :=
  ⟨1, some "Hello", none, none, none, none, none, none, none, none, none, none, none, none, none, []⟩

/-- Shared non-pagination fields of the two `pageEquiv` witness bodies. -/
def c8kvs : List (String × Json) :=
  [("success", .bool true), ("result", .arr [replyJson 1])]

/-- A well-formed pagination metadata object. -/
def c8pag : Json :=
  .obj [("per_page", .int 20), ("total", .int 40), ("pages", .int 2)]

/-- Page oracle whose first page carries pagination metadata. -/
def c8pagesA : Nat → HttpResult := fun p =>
  if p = 1 then .response 200 (.obj (c8kvs ++ [("pagination", c8pag)]))
  else .response 200 (pageBody [])

/-- Page oracle identical to `c8pagesA` except that the metadata is
absent. -/
def c8pagesB : Nat → HttpResult := fun p =>
  if p = 1 then .response 200 (.obj c8kvs)
  else .response 200 (pageBody [])

/-- Envelope with `success: false` and no message at all. -/
def c10body : Json :=
  .obj [("success", .bool false)]

/-- Pages whose every request yields `c10body` with a 200 status. -/
def c10pages : Nat → HttpResult := fun _ => .response 200 c10body

/-- The length of a packed character list is the list's length. -/
theorem asString_length (l : List Char) : (l.asString).length = l.length := rfl

/-- C3 counterexample: for `max_chars = 1` the code does not return the
first `max_chars - 3` code points (there is no non-negative such count);
the Python negative slice keeps all but the last `3 - max_chars`
characters instead, so the claimed description and the code disagree at
`truncate "hello" 1`. -/
theorem C3_truncate_counterexample :
    truncate "hello" (some 1) = "hel..." ∧
    claimTruncate "hello" (some 1) = "..." ∧
    truncate "hello" (some 1) ≠ claimTruncate "hello" (some 1) := by
  refine ⟨by decide, by decide, by decide⟩

/-- C3 (amended): `truncate(text, None) = text`; a provided bound at least
the code-point length returns the text unchanged; otherwise, provided
`max_chars ≥ 3`, the result is the first `max_chars - 3` code points
followed by the three-character marker; and the spec's two concrete
examples hold. -/
theorem C3_truncate_amended (text : String) (m : Int) :
    truncate text none = text ∧
    ((text.length : Int) ≤ m → truncate text (some m) = text) ∧
    (3 ≤ m → m < (text.length : Int) →
      truncate text (some m) = (text.toList.take (m - 3).toNat).asString ++ "...") ∧
    truncate "hello world" (some 5) = "he..." ∧
    truncate "hi" (some 10) = "hi" := by
  refine ⟨rfl, ?_, ?_, by decide, by decide⟩
  · intro h; simp [truncate, h]
  · intro h3 hlen
    have hn : ¬ ((text.length : Int) ≤ m) := by omega
    have hneg : ¬ (m - 3 < 0) := by omega
    simp [truncate, hn, pySliceTo, hneg]

/-- C3 witness: the amended truncation clause evaluated at
`truncate "hello world" 5`. -/
theorem C3_truncate_amended_witness :
    truncate "hello world" (some 5) =
      (("hello world".toList.take ((5 - 3 : Int)).toNat).asString ++ "...") :=
  (C3_truncate_amended "hello world" 5).2.2.1 (by decide) (by decide)

/-- C9: for a provided `0 ≤ max_chars < 3` and text longer than
`max_chars` code points, `truncate` removes the last `3 - max_chars` code
points and appends the marker, and the output length differs from
`max_chars`; the truncated output has length exactly `max_chars` precisely
in the `max_chars ≥ 3` regime. -/
theorem C9_truncate_small (text : String) (m : Int) (h0 : 0 ≤ m)
    (hlen : m < (text.length : Int)) :
    (m < 3 →
      truncate text (some m) =
        (text.toList.take (text.length - (3 - m).toNat)).asString ++ "..." ∧
      (truncate text (some m)).length ≠ m.toNat) ∧
    (3 ≤ m → (truncate text (some m)).length = m.toNat) := by
  have hn : ¬ ((text.length : Int) ≤ m) := by omega
  have hlchars : text.toList.length = text.length := rfl
  have hdots : ("..." : String).length = 3 := rfl
  constructor
  · intro h3
    have hneg : m - 3 < 0 := by omega
    have htr : truncate text (some m) =
        (text.toList.take ((text.length : Int) + (m - 3)).toNat).asString ++ "..." := by
      simp [truncate, hn, pySliceTo, hneg]
    have harg : ((text.length : Int) + (m - 3)).toNat = text.length - (3 - m).toNat := by
      omega
    refine ⟨by rw [htr, harg], ?_⟩
    rw [htr, harg, String.length_append, asString_length, List.length_take, hlchars, hdots]
    omega
  · intro h3
    have hneg : ¬ (m - 3 < 0) := by omega
    have htr : truncate text (some m) =
        (text.toList.take (m - 3).toNat).asString ++ "..." := by
      simp [truncate, hn, pySliceTo, hneg]
    rw [htr, String.length_append, asString_length, List.length_take, hlchars, hdots]
    omega

/-- C9 witness: the small-bound clause evaluated at `truncate "hello" 1`
(which is `"hel..."`, longer than the bound). -/
theorem C9_truncate_small_witness :
    truncate "hello" (some 1) =
      (("hello".toList.take ("hello".length - ((3 - 1 : Int)).toNat)).asString ++ "...") ∧
    (truncate "hello" (some 1)).length ≠ (1 : Int).toNat :=
  (C9_truncate_small "hello" 1 (by decide) (by decide)).1 (by decide)

/-- When every candidate is skipped (absent or whitespace-only string),
`pick_first` falls through to the default. -/
theorem pick_first_all_unusable (vs : List (Option PyVal)) (dflt : String)
    (h : ∀ u ∈ vs, usableVal u = false) : pick_first vs dflt = dflt := by
  induction vs with
  | nil => rfl
  | cons u rest ih =>
    have hu := h u (by simp)
    have hrest : ∀ x ∈ rest, usableVal x = false := fun x hx => h x (by simp [hx])
    rcases u with _ | v
    · simpa [pick_first] using ih hrest
    · rcases v with s | n
      · have hs : pyStrip s = "" := by
          simpa [usableVal] using hu
        simpa [pick_first, hs] using ih hrest
      · simp [usableVal] at hu

/-- The first usable candidate is returned in its string form. -/
theorem pick_first_first_usable (pre : List (Option PyVal)) (v : PyVal)
    (rest : List (Option PyVal)) (dflt : String)
    (hpre : ∀ u ∈ pre, usableVal u = false) (hv : usableVal (some v) = true) :
    pick_first (pre ++ some v :: rest) dflt = v.toStr := by
  induction pre with
  | nil =>
    rcases v with s | n
    · have hs : ¬ (pyStrip s = "") := by simpa [usableVal] using hv
      simp [pick_first, hs, PyVal.toStr]
    · simp [pick_first, PyVal.toStr]
  | cons u pre ih =>
    have hu := hpre u (by simp)
    have hpre' : ∀ x ∈ pre, usableVal x = false := fun x hx => hpre x (by simp [hx])
    rcases u with _ | w
    · simpa [pick_first] using ih hpre'
    · rcases w with s | n
      · have hs : pyStrip s = "" := by simpa [usableVal] using hu
        simpa [pick_first, hs] using ih hpre'
      · simp [usableVal] at hu

/-- C4: `pick_first` returns the string form of the first candidate that
is neither absent nor an empty/whitespace-only string, and the
caller-specified default when every candidate is skipped. -/
theorem C4_pick_first (vs : List (Option PyVal)) (dflt : String) :
    (∀ pre v rest, vs = pre ++ some v :: rest →
      (∀ u ∈ pre, usableVal u = false) → usableVal (some v) = true →
      pick_first vs dflt = v.toStr) ∧
    ((∀ u ∈ vs, usableVal u = false) → pick_first vs dflt = dflt) := by
  constructor
  · intro pre v rest hvs hpre hv
    subst hvs
    exact pick_first_first_usable pre v rest dflt hpre hv
  · exact pick_first_all_unusable vs dflt

/-- C4 witness: the spec's two `pick_first` examples, obtained from the
theorem at the concrete candidate lists. -/
theorem C4_pick_first_witness :
    pick_first [some (.str ""), none, some (.str "x"), some (.str "y")] "" = "x" ∧
    pick_first [none, some (.str "")] "" = "" :=
  ⟨(C4_pick_first _ "").1 [some (.str ""), none] (.str "x") [some (.str "y")] rfl
      (by decide) (by decide),
   (C4_pick_first _ "").2 (by decide)⟩

/-- C2: an envelope validating with `success = false` and a non-empty
server message makes `fetch_topic` fail with an `ApiError` carrying
exactly that message. -/
theorem C2_fetch_topic_api_error (status : Nat) (body : Json) (r : ApiResponse) (msg : String)
    (hs : is2xx status = true)
    (hv : ApiResponse.validate body = .ok r)
    (hsucc : r.success = false)
    (hmsg : r.message = some msg) (hne : msg ≠ "") :
    fetch_topic (.response status body) = .error (.apiError msg) := by
  simp [fetch_topic, hs, ensure_success, hv, hsucc, pyOrElse, hmsg, hne]

/-- C2 witness: the `success: false, message: "Rate limited"` envelope. -/
theorem C2_fetch_topic_api_error_witness :
    fetch_topic (.response 200 c2body) = .error (.apiError "Rate limited") :=
  C2_fetch_topic_api_error 200 c2body ⟨false, some "Rate limited"⟩ "Rate limited"
    (by decide) rfl rfl rfl (by decide)

/-- Peeling one page off a consecutive page-length sum. -/
theorem sumLens_succ (L : Nat → List Reply) (start k : Nat) :
    sumLens L start (k + 1) = (L start).length + sumLens L (start + 1) k := by
  simp only [sumLens, List.range_succ_eq_map, List.map_cons, List.map_map, List.sum_cons,
    Nat.add_zero]
  congr 1
  refine congrArg List.sum ?_
  apply List.map_congr_left
  intro i _
  simp only [Function.comp_apply]
  congr 2
  omega

/-- If the pages before `p` all succeed non-empty without reaching the
reply cap and page `p` fails, the whole loop fails with that error. -/
theorem fetchRepliesAux_abort (pages : Nat → HttpResult) (L : Nat → List Reply)
    (mr : Option Nat) (p : Nat) (e : V2exError)
    (hfail : processPage (pages p) = .error e) :
    ∀ fuel page acc count, page ≤ p → p < page + fuel →
      (∀ q, page ≤ q → q < p → processPage (pages q) = .ok (L q) ∧ (L q).isEmpty = false) →
      (∀ m, mr = some m → page < p → acc.length + sumLens L page (p - page) < m) →
      fetchRepliesAux pages mr page acc count fuel = .error e := by
  intro fuel
  induction fuel with
  | zero => intro page acc count h1 h2 _ _; omega
  | succ fuel ih =>
    intro page acc count h1 h2 hprev hcap
    by_cases hpp : page = p
    · subst hpp
      simp [fetchRepliesAux, hfail]
    · have hlt : page < p := by omega
      obtain ⟨hok, hne⟩ := hprev page le_rfl hlt
      have hsum : sumLens L page (p - page) =
          (L page).length + sumLens L (page + 1) (p - (page + 1)) := by
        have hpp' : p - page = (p - (page + 1)) + 1 := by omega
        rw [hpp', sumLens_succ]
      rcases mr with _ | m
      · simp only [fetchRepliesAux, hok, hne]
        exact ih (page + 1) (acc ++ L page) (count + 1) (by omega) (by omega)
          (fun q hq1 hq2 => hprev q (by omega) hq2) (by simp)
      · have hcap' := hcap m rfl hlt
        rw [hsum] at hcap'
        have hltm : (acc ++ L page).length < m := by
          rw [List.length_append]; omega
        have hnotle : ¬ (m ≤ (acc ++ L page).length) := by omega
        simp only [fetchRepliesAux, hok, hne, Bool.false_eq_true, if_false, hnotle, if_neg]
        exact ih (page + 1) (acc ++ L page) (count + 1) (by omega) (by omega)
          (fun q hq1 hq2 => hprev q (by omega) hq2)
          (fun m' hm' hlt' => by
            cases hm'
            rw [List.length_append]
            omega)

/-- C6: if a reply page request fails (in particular with a non-2xx
status or a network error), after earlier pages succeeded non-empty
without reaching the cutoffs, `fetch_replies` fails as a whole with that
error, returning no partial reply list. -/
theorem C6_error_propagation (pages : Nat → HttpResult) (L : Nat → List Reply)
    (mp : Nat) (mr : Option Nat) (p : Nat) (e : V2exError)
    (h1 : 1 ≤ p) (hple : p ≤ mp)
    (hprev : ∀ q, 1 ≤ q → q < p → processPage (pages q) = .ok (L q) ∧ (L q).isEmpty = false)
    (hcap : ∀ m, mr = some m → 1 < p → sumLens L 1 (p - 1) < m)
    (hfail : processPage (pages p) = .error e) :
    fetch_replies pages mp mr = .error e ∧
    (∀ status body, is2xx status = false →
      processPage (.response status body) = .error (.httpError status)) ∧
    processPage HttpResult.netError = .error .netError := by
  refine ⟨?_, ?_, rfl⟩
  · have habort := fetchRepliesAux_abort pages L mr p e hfail mp 1 [] 0 h1 (by omega) hprev
      (fun m hm hlt => by simpa using hcap m hm hlt)
    simp [fetch_replies, fetchRepliesTrace, habort, Except.map]
  · intro status body hs
    simp [processPage, hs]

/-- C6 witness: a 500 status on the first reply page with `max_pages = 3`
aborts `fetch_replies` entirely. -/
theorem C6_error_propagation_witness :
    fetch_replies c6pages 3 none = .error (.httpError 500) :=
  (C6_error_propagation c6pages (fun _ => []) 3 none 1 (.httpError 500)
    (by omega) (by omega)
    (fun q hq1 hq2 => absurd (by omega : ¬ (q < 1)) (fun h => h hq2))
    (fun m hm hlt => absurd hlt (by omega))
    rfl).1

/-- C10: an envelope with `success = false` and an absent or empty
message produces the fixed default diagnostic, through `_ensure_success`,
`fetch_topic` and `fetch_replies` alike. -/
theorem C10_default_error_message (payload : Json) (r : ApiResponse) (status : Nat)
    (pages : Nat → HttpResult) (mp : Nat)
    (hv : ApiResponse.validate payload = .ok r) (hsucc : r.success = false)
    (hmsg : r.message = none ∨ r.message = some "")
    (hs : is2xx status = true) (hmp : 1 ≤ mp) (hpage : pages 1 = .response status payload) :
    ensure_success payload = .error (.apiError "V2EX API error") ∧
    fetch_topic (.response status payload) = .error (.apiError "V2EX API error") ∧
    ∀ mr, fetch_replies pages mp mr = .error (.apiError "V2EX API error") := by
  have hens : ensure_success payload = .error (.apiError "V2EX API error") := by
    rcases hmsg with hmsg | hmsg <;> simp [ensure_success, hv, hsucc, pyOrElse, hmsg]
  refine ⟨hens, ?_, ?_⟩
  · simp [fetch_topic, hs, hens]
  · intro mr
    have hproc : processPage (pages 1) = .error (.apiError "V2EX API error") := by
      rw [hpage]; simp [processPage, hs, hens]
    have habort := fetchRepliesAux_abort pages (fun _ => []) mr 1 (.apiError "V2EX API error")
      hproc mp 1 [] 0 le_rfl (by omega)
      (fun q hq1 hq2 => absurd hq2 (by omega))
      (fun m hm hlt => absurd hlt (by omega))
    simp [fetch_replies, fetchRepliesTrace, habort, Except.map]

/-- C10 witness: a `success: false` envelope with no message field at
all yields the default diagnostic through all three entry points. -/
theorem C10_default_error_message_witness :
    ensure_success c10body = .error (.apiError "V2EX API error") ∧
    fetch_topic (.response 200 c10body) = .error (.apiError "V2EX API error") ∧
    fetch_replies c10pages 1 none = .error (.apiError "V2EX API error") := by
  have h := C10_default_error_message c10body ⟨false, none⟩ 200 c10pages 1
    rfl rfl (Or.inl rfl) (by decide) (by omega) rfl
  exact ⟨h.1, h.2.1, h.2.2 none⟩

/-- Monadic bind on a successful `Except` value steps to the
continuation. -/
theorem bindOk {α β : Type} (x : α) (f : α → Except V2exError β) :
    (Except.ok x >>= f) = f x := rfl

/-- Refinement of the pagination loop: when every page exchange succeeds
and decodes to `L p`, the instrumented loop agrees with the abstract
walk `specFetchAux` from any starting state. -/
theorem fetchRepliesAux_spec (pages : Nat → HttpResult) (L : Nat → List Reply) (mr : Option Nat)
    (h : ∀ p, processPage (pages p) = .ok (L p)) :
    ∀ fuel page acc count,
      fetchRepliesAux pages mr page acc count fuel =
        .ok (specFetchAux L mr page acc count fuel) := by
  intro fuel
  induction fuel with
  | zero => intro page acc count; rfl
  | succ fuel ih =>
    intro page acc count
    simp only [fetchRepliesAux, specFetchAux, h page]
    by_cases hd : (L page).isEmpty
    · simp [hd]
    · simp only [hd, Bool.false_eq_true, if_false]
      rcases mr with _ | m
      · exact ih (page + 1) (acc ++ L page) (count + 1)
      · show (if m ≤ (acc ++ L page).length then Except.ok ((acc ++ L page).take m, count + 1)
              else fetchRepliesAux pages (some m) (page + 1) (acc ++ L page) (count + 1) fuel) =
            Except.ok (if m ≤ (acc ++ L page).length then ((acc ++ L page).take m, count + 1)
              else specFetchAux L (some m) (page + 1) (acc ++ L page) (count + 1) fuel)
        by_cases hm : m ≤ (acc ++ L page).length
        · rw [if_pos hm, if_pos hm]
        · rw [if_neg hm, if_neg hm]
          exact ih (page + 1) (acc ++ L page) (count + 1)

/-- A list of minimal reply payloads decodes to the matching replies. -/
theorem decodeEach_replyJson (ids : List Nat) :
    decodeEach Reply.validate (ids.map (fun i => replyJson i)) = .ok (ids.map mkReply) := by
  induction ids with
  | nil => rfl
  | cons i ids ih =>
    simp only [List.map_cons, decodeEach]
    rw [show Reply.validate (replyJson i) = .ok (mkReply i) from rfl, ih]
    rfl

/-- A 200-status page holding `pageBody ids` passes envelope checking and
decodes to the matching replies. -/
theorem processPage_pageBody (ids : List Nat) :
    processPage (.response 200 (pageBody ids)) = .ok (ids.map mkReply) := by
  have hde := decodeEach_replyJson ids
  have hsuc : (pageBody ids).lookup "success" = some (.bool true) := rfl
  have hmsg : (pageBody ids).lookup "message" = none := rfl
  have hres : (pageBody ids).lookup "result" = some (.arr (ids.map (fun i => replyJson i))) := rfl
  have hpag : (pageBody ids).lookup "pagination" = none := rfl
  have hobj : (pageBody ids).isObj = true := rfl
  simp [processPage, is2xx, ensure_success, ApiResponse.validate, RepliesResponse.validate,
    hsuc, hmsg, hres, hpag, hobj, reqBool, optStr, listOf, optWith, hde, Except.map, bindOk]

/-- Every page of the concrete [20, 20, 0] scenario succeeds and decodes
to the abstract contents `c1L`. -/
theorem c1pages_ok : ∀ p, processPage (c1pages p) = .ok (c1L p) := by
  intro p
  by_cases h1 : p = 1
  · simp [c1pages, c1L, h1, processPage_pageBody]
  · by_cases h2 : p = 2
    · simp [c1pages, c1L, h1, h2, processPage_pageBody]
    · simpa [c1pages, c1L, h1, h2] using processPage_pageBody []

/-- C1: on successful page responses the loop requests pages 1, 2, ... and
stops exactly as the spec's abstract schedule `specFetchReplies` does
(next page past `max_pages`, empty page, or reply cap reached with
truncation to exactly `max_replies`); with page sizes [20, 20, 0] and
`max_pages = 5` it issues 3 requests for 40 replies, and with
`max_replies = 15` it issues 1 request for exactly 15 replies. -/
theorem C1_fetch_replies_pagination (pages : Nat → HttpResult) (L : Nat → List Reply)
    (mp : Nat) (mr : Option Nat) (hmp : 1 ≤ mp)
    (hsucc : ∀ p, processPage (pages p) = .ok (L p)) :
    fetchRepliesTrace pages mp mr = .ok (specFetchReplies L mp mr) ∧
    (fetchRepliesTrace c1pages 5 none).map (fun x => (x.1.length, x.2)) = .ok (40, 3) ∧
    (fetchRepliesTrace c1pages 5 (some 15)).map (fun x => (x.1.length, x.2)) = .ok (15, 1) := by
  refine ⟨fetchRepliesAux_spec pages L mr hsucc mp 1 [] 0, rfl, rfl⟩

/-- C1 witness: the refinement instantiated on the [20, 20, 0] scenario,
together with both concrete request/reply counts. -/
theorem C1_fetch_replies_pagination_witness :
    fetchRepliesTrace c1pages 5 none = .ok (specFetchReplies c1L 5 none) ∧
    (fetchRepliesTrace c1pages 5 none).map (fun x => (x.1.length, x.2)) = .ok (40, 3) ∧
    (fetchRepliesTrace c1pages 5 (some 15)).map (fun x => (x.1.length, x.2)) = .ok (15, 1) :=
  C1_fetch_replies_pagination c1pages c1L 5 none (by omega) c1pages_ok

/-- Monadic bind on a failed `Except` value short-circuits. -/
theorem bindErr {α β : Type} (e : V2exError) (f : α → Except V2exError β) :
    ((Except.error e : Except V2exError α) >>= f) = Except.error e := rfl

/-- Lookup misses when no key matches. -/
theorem lookupKvs_eq_none_of_all_ne (extra : List (String × Json)) (k : String)
    (h : ∀ kv ∈ extra, kv.1 ≠ k) : lookupKvs extra k = none := by
  induction extra with
  | nil => rfl
  | cons kv rest ih =>
    have h1 := h kv (by simp)
    simp only [lookupKvs, h1, if_false]
    exact ih (fun x hx => h x (by simp [hx]))

/-- Appended entries with other keys never affect a lookup. -/
theorem lookupKvs_append_of_all_ne (kvs extra : List (String × Json)) (k : String)
    (h : ∀ kv ∈ extra, kv.1 ≠ k) : lookupKvs (kvs ++ extra) k = lookupKvs kvs k := by
  induction kvs with
  | nil => simpa using lookupKvs_eq_none_of_all_ne extra k h
  | cons kv rest ih =>
    by_cases hk : kv.1 = k <;> simp [lookupKvs, hk, ih]

/-- `Member.validate` reads only the declared field names. -/
theorem member_validate_congr (j j' : Json) (hObj : j.isObj = j'.isObj)
    (h : ∀ k ∈ Member.fields, j.lookup k = j'.lookup k) :
    Member.validate j = Member.validate j' := by
  simp only [Member.validate, hObj,
    h "id" (by simp [Member.fields]),
    h "username" (by simp [Member.fields]),
    h "name" (by simp [Member.fields]),
    h "bio" (by simp [Member.fields]),
    h "website" (by simp [Member.fields]),
    h "github" (by simp [Member.fields]),
    h "url" (by simp [Member.fields]),
    h "avatar" (by simp [Member.fields]),
    h "created" (by simp [Member.fields]),
    h "pro" (by simp [Member.fields])]

/-- `Node.validate` reads only the declared field names. -/
theorem node_validate_congr (j j' : Json) (hObj : j.isObj = j'.isObj)
    (h : ∀ k ∈ Node.fields, j.lookup k = j'.lookup k) :
    Node.validate j = Node.validate j' := by
  simp only [Node.validate, hObj,
    h "id" (by simp [Node.fields]),
    h "url" (by simp [Node.fields]),
    h "name" (by simp [Node.fields]),
    h "title" (by simp [Node.fields]),
    h "header" (by simp [Node.fields]),
    h "footer" (by simp [Node.fields]),
    h "avatar" (by simp [Node.fields]),
    h "topics" (by simp [Node.fields]),
    h "created" (by simp [Node.fields]),
    h "last_modified" (by simp [Node.fields])]

/-- `Topic.validate` reads only the declared field names. -/
theorem topic_validate_congr (j j' : Json) (hObj : j.isObj = j'.isObj)
    (h : ∀ k ∈ Topic.fields, j.lookup k = j'.lookup k) :
    Topic.validate j = Topic.validate j' := by
  simp only [Topic.validate, hObj,
    h "id" (by simp [Topic.fields]),
    h "title" (by simp [Topic.fields]),
    h "content" (by simp [Topic.fields]),
    h "content_rendered" (by simp [Topic.fields]),
    h "syntax" (by simp [Topic.fields]),
    h "url" (by simp [Topic.fields]),
    h "replies" (by simp [Topic.fields]),
    h "last_reply_by" (by simp [Topic.fields]),
    h "created" (by simp [Topic.fields]),
    h "created_at" (by simp [Topic.fields]),
    h "last_modified" (by simp [Topic.fields]),
    h "last_touched" (by simp [Topic.fields]),
    h "member" (by simp [Topic.fields]),
    h "node" (by simp [Topic.fields]),
    h "node_id" (by simp [Topic.fields]),
    h "supplements" (by simp [Topic.fields])]

/-- `Reply.validate` reads only the declared field names. -/
theorem reply_validate_congr (j j' : Json) (hObj : j.isObj = j'.isObj)
    (h : ∀ k ∈ Reply.fields, j.lookup k = j'.lookup k) :
    Reply.validate j = Reply.validate j' := by
  simp only [Reply.validate, hObj,
    h "id" (by simp [Reply.fields]),
    h "content" (by simp [Reply.fields]),
    h "content_rendered" (by simp [Reply.fields]),
    h "created" (by simp [Reply.fields]),
    h "created_at" (by simp [Reply.fields]),
    h "member" (by simp [Reply.fields])]

/-- `Pagination.validate` reads only the declared field names. -/
theorem pagination_validate_congr (j j' : Json) (hObj : j.isObj = j'.isObj)
    (h : ∀ k ∈ Pagination.fields, j.lookup k = j'.lookup k) :
    Pagination.validate j = Pagination.validate j' := by
  simp only [Pagination.validate, hObj,
    h "per_page" (by simp [Pagination.fields]),
    h "total" (by simp [Pagination.fields]),
    h "pages" (by simp [Pagination.fields])]

/-- `ApiResponse.validate` reads only the declared field names. -/
theorem api_response_validate_congr (j j' : Json) (hObj : j.isObj = j'.isObj)
    (h : ∀ k ∈ ApiResponse.fields, j.lookup k = j'.lookup k) :
    ApiResponse.validate j = ApiResponse.validate j' := by
  simp only [ApiResponse.validate, hObj,
    h "success" (by simp [ApiResponse.fields]),
    h "message" (by simp [ApiResponse.fields])]

/-- `TopicResponse.validate` reads only the declared field names. -/
theorem topic_response_validate_congr (j j' : Json) (hObj : j.isObj = j'.isObj)
    (h : ∀ k ∈ TopicResponse.fields, j.lookup k = j'.lookup k) :
    TopicResponse.validate j = TopicResponse.validate j' := by
  simp only [TopicResponse.validate, hObj,
    h "success" (by simp [TopicResponse.fields]),
    h "message" (by simp [TopicResponse.fields]),
    h "result" (by simp [TopicResponse.fields])]

/-- `RepliesResponse.validate` reads only the declared field names. -/
theorem replies_response_validate_congr (j j' : Json) (hObj : j.isObj = j'.isObj)
    (h : ∀ k ∈ RepliesResponse.fields, j.lookup k = j'.lookup k) :
    RepliesResponse.validate j = RepliesResponse.validate j' := by
  simp only [RepliesResponse.validate, hObj,
    h "success" (by simp [RepliesResponse.fields]),
    h "message" (by simp [RepliesResponse.fields]),
    h "result" (by simp [RepliesResponse.fields]),
    h "pagination" (by simp [RepliesResponse.fields])]

theorem reqInt_none : reqInt none = .error .validationError := rfl

theorem reqBool_none : reqBool none = .error .validationError := rfl

theorem reqWith_none (f : Json → Except V2exError α) :
    reqWith f none = .error .validationError := rfl

/-- A required-int decode either succeeds or reports a validation error. -/
theorem reqInt_cases (o : Option Json) :
    (∃ n, reqInt o = .ok n) ∨ reqInt o = .error .validationError := by
  rcases o with _ | j
  · exact Or.inr rfl
  · cases j with
    | int n => exact Or.inl ⟨n, rfl⟩
    | null => exact Or.inr rfl
    | bool b => exact Or.inr rfl
    | str s => exact Or.inr rfl
    | arr xs => exact Or.inr rfl
    | obj kvs => exact Or.inr rfl

/-- A required-bool decode either succeeds or reports a validation error. -/
theorem reqBool_cases (o : Option Json) :
    (∃ b, reqBool o = .ok b) ∨ reqBool o = .error .validationError := by
  rcases o with _ | j
  · exact Or.inr rfl
  · cases j with
    | bool b => exact Or.inl ⟨b, rfl⟩
    | null => exact Or.inr rfl
    | int n => exact Or.inr rfl
    | str s => exact Or.inr rfl
    | arr xs => exact Or.inr rfl
    | obj kvs => exact Or.inr rfl

/-- An optional-string decode either succeeds or reports a validation error. -/
theorem optStr_cases (o : Option Json) :
    (∃ s, optStr o = .ok s) ∨ optStr o = .error .validationError := by
  rcases o with _ | j
  · exact Or.inl ⟨none, rfl⟩
  · cases j with
    | str s => exact Or.inl ⟨some s, rfl⟩
    | null => exact Or.inl ⟨none, rfl⟩
    | int n => exact Or.inr rfl
    | bool b => exact Or.inr rfl
    | arr xs => exact Or.inr rfl
    | obj kvs => exact Or.inr rfl

/-- A `Member` payload without `id` is rejected. -/
theorem member_validate_missing_id (j : Json) (h : j.lookup "id" = none) :
    Member.validate j = .error .validationError := by
  by_cases hobj : j.isObj
  · simp [Member.validate, hobj, h, reqInt_none, bindErr]
  · simp [Member.validate, hobj]

/-- A `Node` payload without `id` is rejected. -/
theorem node_validate_missing_id (j : Json) (h : j.lookup "id" = none) :
    Node.validate j = .error .validationError := by
  by_cases hobj : j.isObj
  · simp [Node.validate, hobj, h, reqInt_none, bindErr]
  · simp [Node.validate, hobj]

/-- A `Topic` payload without `id` is rejected. -/
theorem topic_validate_missing_id (j : Json) (h : j.lookup "id" = none) :
    Topic.validate j = .error .validationError := by
  by_cases hobj : j.isObj
  · simp [Topic.validate, hobj, h, reqInt_none, bindErr]
  · simp [Topic.validate, hobj]

/-- A `Reply` payload without `id` is rejected. -/
theorem reply_validate_missing_id (j : Json) (h : j.lookup "id" = none) :
    Reply.validate j = .error .validationError := by
  by_cases hobj : j.isObj
  · simp [Reply.validate, hobj, h, reqInt_none, bindErr]
  · simp [Reply.validate, hobj]

/-- A `Pagination` payload missing any required field is rejected. -/
theorem pagination_validate_missing (j : Json)
    (h : j.lookup "per_page" = none ∨ j.lookup "total" = none ∨ j.lookup "pages" = none) :
    Pagination.validate j = .error .validationError := by
  by_cases hobj : j.isObj
  · rcases h with h | h | h
    · simp [Pagination.validate, hobj, h, reqInt_none, bindErr]
    · rcases reqInt_cases (j.lookup "per_page") with ⟨n, hn⟩ | hn
      · simp [Pagination.validate, hobj, hn, h, reqInt_none, bindOk, bindErr]
      · simp [Pagination.validate, hobj, hn, bindErr]
    · rcases reqInt_cases (j.lookup "per_page") with ⟨n, hn⟩ | hn
      · rcases reqInt_cases (j.lookup "total") with ⟨n', hn'⟩ | hn'
        · simp [Pagination.validate, hobj, hn, hn', h, reqInt_none, bindOk, bindErr]
        · simp [Pagination.validate, hobj, hn, hn', bindOk, bindErr]
      · simp [Pagination.validate, hobj, hn, bindErr]
  · simp [Pagination.validate, hobj]

/-- An envelope without `success` is rejected. -/
theorem api_response_validate_missing_success (j : Json) (h : j.lookup "success" = none) :
    ApiResponse.validate j = .error .validationError := by
  by_cases hobj : j.isObj
  · simp [ApiResponse.validate, hobj, h, reqBool_none, bindErr]
  · simp [ApiResponse.validate, hobj]

/-- A topic envelope missing `success` or `result` is rejected. -/
theorem topic_response_validate_missing (j : Json)
    (h : j.lookup "success" = none ∨ j.lookup "result" = none) :
    TopicResponse.validate j = .error .validationError := by
  by_cases hobj : j.isObj
  · rcases h with h | h
    · simp [TopicResponse.validate, hobj, h, reqBool_none, bindErr]
    · rcases reqBool_cases (j.lookup "success") with ⟨b, hb⟩ | hb
      · rcases optStr_cases (j.lookup "message") with ⟨s, hs⟩ | hs
        · simp [TopicResponse.validate, hobj, hb, hs, h, reqWith_none, bindOk, bindErr]
        · simp [TopicResponse.validate, hobj, hb, hs, bindOk, bindErr]
      · simp [TopicResponse.validate, hobj, hb, bindErr]
  · simp [TopicResponse.validate, hobj]

/-- A replies envelope without `success` is rejected. -/
theorem replies_response_validate_missing_success (j : Json) (h : j.lookup "success" = none) :
    RepliesResponse.validate j = .error .validationError := by
  by_cases hobj : j.isObj
  · simp [RepliesResponse.validate, hobj, h, reqBool_none, bindErr]
  · simp [RepliesResponse.validate, hobj]

/-- Appending unknown-key entries to an object leaves every declared field lookup unchanged. -/
theorem lookup_obj_append (kvs extra : List (String × Json)) (fields : List String)
    (h : ∀ kv ∈ extra, kv.1 ∉ fields) :
    ∀ k ∈ fields, (Json.obj (kvs ++ extra)).lookup k = (Json.obj kvs).lookup k := by
  intro k hk
  show lookupKvs (kvs ++ extra) k = lookupKvs kvs k
  apply lookupKvs_append_of_all_ne
  intro kv hkv hkk
  exact h kv hkv (hkk ▸ hk)

/-- C5: for every entity type, a payload lacking a required field fails with a validation error, while appending unknown keys to a payload never changes the decoding result (they are silently ignored). -/
theorem C5_validation :
    (∀ j : Json, j.lookup "id" = none → Member.validate j = .error .validationError) ∧
    (∀ kvs extra, (∀ kv ∈ extra, kv.1 ∉ Member.fields) →
      Member.validate (.obj (kvs ++ extra)) = Member.validate (.obj kvs)) ∧
    (∀ j : Json, j.lookup "id" = none → Node.validate j = .error .validationError) ∧
    (∀ kvs extra, (∀ kv ∈ extra, kv.1 ∉ Node.fields) →
      Node.validate (.obj (kvs ++ extra)) = Node.validate (.obj kvs)) ∧
    (∀ j : Json, j.lookup "id" = none → Topic.validate j = .error .validationError) ∧
    (∀ kvs extra, (∀ kv ∈ extra, kv.1 ∉ Topic.fields) →
      Topic.validate (.obj (kvs ++ extra)) = Topic.validate (.obj kvs)) ∧
    (∀ j : Json, j.lookup "id" = none → Reply.validate j = .error .validationError) ∧
    (∀ kvs extra, (∀ kv ∈ extra, kv.1 ∉ Reply.fields) →
      Reply.validate (.obj (kvs ++ extra)) = Reply.validate (.obj kvs)) ∧
    (∀ j : Json, (j.lookup "per_page" = none ∨ j.lookup "total" = none ∨
        j.lookup "pages" = none) → Pagination.validate j = .error .validationError) ∧
    (∀ kvs extra, (∀ kv ∈ extra, kv.1 ∉ Pagination.fields) →
      Pagination.validate (.obj (kvs ++ extra)) = Pagination.validate (.obj kvs)) ∧
    (∀ j : Json, j.lookup "success" = none → ApiResponse.validate j = .error .validationError) ∧
    (∀ kvs extra, (∀ kv ∈ extra, kv.1 ∉ ApiResponse.fields) →
      ApiResponse.validate (.obj (kvs ++ extra)) = ApiResponse.validate (.obj kvs)) ∧
    (∀ j : Json, (j.lookup "success" = none ∨ j.lookup "result" = none) →
      TopicResponse.validate j = .error .validationError) ∧
    (∀ kvs extra, (∀ kv ∈ extra, kv.1 ∉ TopicResponse.fields) →
      TopicResponse.validate (.obj (kvs ++ extra)) = TopicResponse.validate (.obj kvs)) ∧
    (∀ j : Json, j.lookup "success" = none → RepliesResponse.validate j = .error .validationError) ∧
    (∀ kvs extra, (∀ kv ∈ extra, kv.1 ∉ RepliesResponse.fields) →
      RepliesResponse.validate (.obj (kvs ++ extra)) = RepliesResponse.validate (.obj kvs)) :=
  ⟨member_validate_missing_id,
   fun kvs extra h => member_validate_congr _ _ rfl (lookup_obj_append kvs extra Member.fields h),
   node_validate_missing_id,
   fun kvs extra h => node_validate_congr _ _ rfl (lookup_obj_append kvs extra Node.fields h),
   topic_validate_missing_id,
   fun kvs extra h => topic_validate_congr _ _ rfl (lookup_obj_append kvs extra Topic.fields h),
   reply_validate_missing_id,
   fun kvs extra h => reply_validate_congr _ _ rfl (lookup_obj_append kvs extra Reply.fields h),
   pagination_validate_missing,
   fun kvs extra h =>
     pagination_validate_congr _ _ rfl (lookup_obj_append kvs extra Pagination.fields h),
   api_response_validate_missing_success,
   fun kvs extra h =>
     api_response_validate_congr _ _ rfl (lookup_obj_append kvs extra ApiResponse.fields h),
   topic_response_validate_missing,
   fun kvs extra h =>
     topic_response_validate_congr _ _ rfl (lookup_obj_append kvs extra TopicResponse.fields h),
   replies_response_validate_missing_success,
   fun kvs extra h =>
     replies_response_validate_congr _ _ rfl (lookup_obj_append kvs extra RepliesResponse.fields h)⟩

/-- C5 witness: a `Topic` payload without `id` is rejected, and a junk key appended to a minimal `Topic` payload leaves decoding unchanged. -/
theorem C5_validation_witness :
    Topic.validate (.obj [("title", .str "x")]) = .error .validationError ∧
    Topic.validate (.obj ([("id", .int 1)] ++ [("zzz", .str "q")])) =
      Topic.validate (.obj [("id", .int 1)]) :=
  ⟨C5_validation.2.2.2.2.1 (.obj [("title", .str "x")]) rfl,
   C5_validation.2.2.2.2.2.1 [("id", .int 1)] [("zzz", .str "q")] (by decide)⟩

/-- `_ensure_success` reads only the `success` and `message` fields. -/
theorem ensure_success_congr (b b' : Json) (hobj : b.isObj = b'.isObj)
    (hs : b.lookup "success" = b'.lookup "success")
    (hm : b.lookup "message" = b'.lookup "message") :
    ensure_success b = ensure_success b' := by
  have hv := api_response_validate_congr b b' hobj (fun k hk => by
    simp [ApiResponse.fields] at hk
    rcases hk with h | h
    · subst h; exact hs
    · subst h; exact hm)
  simp [ensure_success, hv]

/-- The decoded reply list of a replies envelope does not depend on the
`pagination` entry, as long as that entry (when present) is itself
well-formed on both sides. -/
theorem replies_result_congr_mod_pagination (b b' : Json)
    (hobj : b.isObj = b'.isObj)
    (hk : ∀ k, k ≠ "pagination" → b.lookup k = b'.lookup k)
    (hp : (optWith Pagination.validate (b.lookup "pagination")).isOk = true)
    (hp' : (optWith Pagination.validate (b'.lookup "pagination")).isOk = true) :
    (RepliesResponse.validate b).map RepliesResponse.result =
      (RepliesResponse.validate b').map RepliesResponse.result := by
  have hs := hk "success" (by decide)
  have hm := hk "message" (by decide)
  have hr := hk "result" (by decide)
  by_cases ho : b.isObj
  case neg =>
    have hof : b.isObj = false := by simpa using ho
    have ho' : b'.isObj = false := by rw [← hobj]; exact hof
    simp [RepliesResponse.validate, hof, ho']
  case pos =>
    have ho' : b'.isObj = true := by rw [← hobj]; exact ho
    rcases hpag : optWith Pagination.validate (b.lookup "pagination") with e | pg
    · rw [hpag] at hp; simp [Except.isOk, Except.toBool] at hp
    rcases hpag' : optWith Pagination.validate (b'.lookup "pagination") with e' | pg'
    · rw [hpag'] at hp'; simp [Except.isOk, Except.toBool] at hp'
    simp only [RepliesResponse.validate, ho, ho', if_true, hs, hm, hr, hpag, hpag']
    rcases hsb : reqBool (b'.lookup "success") with e | sb
    · simp [hsb, bindErr]
    rcases hms : optStr (b'.lookup "message") with e | ms
    · simp [hsb, hms, bindOk, bindErr]
    rcases hres : listOf Reply.validate (b'.lookup "result") with e | l
    · simp [hsb, hms, hres, bindOk, bindErr]
    simp [hsb, hms, hres, bindOk, Except.map]

/-- Pagination-equivalent page exchanges process identically. -/
theorem processPage_pageEquiv (r r' : HttpResult) (h : pageEquiv r r') :
    processPage r = processPage r' := by
  cases r with
  | netError =>
    cases r' with
    | netError => rfl
    | response s' b' => exact h.elim
  | response s b =>
    cases r' with
    | netError => exact h.elim
    | response s' b' =>
      obtain ⟨hss, hobj, hk, hp, hp'⟩ := h
      subst hss
      by_cases h2 : is2xx s
      case neg =>
        have h2f : is2xx s = false := by simpa using h2
        simp [processPage, h2f]
      case pos =>
        have hens := ensure_success_congr b b' hobj
          (hk "success" (by decide)) (hk "message" (by decide))
        have hres := replies_result_congr_mod_pagination b b' hobj hk hp hp'
        simp only [processPage, h2, if_true, hens]
        rcases hE : ensure_success b' with e | u
        · rfl
        · exact hres

/-- The pagination loop is invariant under pagination-equivalent page
oracles, from any starting state. -/
theorem fetchRepliesAux_equiv (pages pages' : Nat → HttpResult) (mr : Option Nat)
    (h : ∀ p, pageEquiv (pages p) (pages' p)) :
    ∀ fuel page acc count,
      fetchRepliesAux pages mr page acc count fuel =
        fetchRepliesAux pages' mr page acc count fuel := by
  intro fuel
  induction fuel with
  | zero => intro page acc count; rfl
  | succ fuel ih =>
    intro page acc count
    have hpp := processPage_pageEquiv (pages page) (pages' page) (h page)
    simp only [fetchRepliesAux, hpp]
    rcases hd : processPage (pages' page) with e | data
    · rfl
    · by_cases hde : data.isEmpty
      · simp [hde]
      · simp only [hde, Bool.false_eq_true, if_false]
        rcases mr with _ | m
        · exact ih (page + 1) (acc ++ data) (count + 1)
        · show (if m ≤ (acc ++ data).length then Except.ok ((acc ++ data).take m, count + 1)
                else fetchRepliesAux pages (some m) (page + 1) (acc ++ data) (count + 1) fuel) =
              (if m ≤ (acc ++ data).length then Except.ok ((acc ++ data).take m, count + 1)
                else fetchRepliesAux pages' (some m) (page + 1) (acc ++ data) (count + 1) fuel)
          by_cases hm : m ≤ (acc ++ data).length
          · rw [if_pos hm, if_pos hm]
          · rw [if_neg hm, if_neg hm]
            exact ih (page + 1) (acc ++ data) (count + 1)

/-- C8: two runs whose page responses differ only in their pagination
metadata (values or presence, both well-formed) issue the same requests
and return the same replies - the whole instrumented trace coincides. -/
theorem C8_pagination_metadata_irrelevant (pages pages' : Nat → HttpResult)
    (mp : Nat) (mr : Option Nat)
    (h : ∀ p, pageEquiv (pages p) (pages' p)) :
    fetchRepliesTrace pages mp mr = fetchRepliesTrace pages' mp mr ∧
    fetch_replies pages mp mr = fetch_replies pages' mp mr := by
  have he := fetchRepliesAux_equiv pages pages' mr h mp 1 [] 0
  exact ⟨he, by simp [fetch_replies, fetchRepliesTrace, he]⟩

/-- The two concrete page oracles (metadata present vs absent) are
pagination-equivalent. -/
theorem c8pages_equiv : ∀ p, pageEquiv (c8pagesA p) (c8pagesB p) := by
  intro p
  by_cases h1 : p = 1
  · subst h1
    refine ⟨rfl, rfl, ?_, rfl, rfl⟩
    intro k hkp
    show lookupKvs (c8kvs ++ [("pagination", c8pag)]) k = lookupKvs c8kvs k
    apply lookupKvs_append_of_all_ne
    intro kv hkv
    simp at hkv
    subst hkv
    exact fun he => hkp he.symm
  · simp only [c8pagesA, c8pagesB, h1, if_false]
    exact ⟨rfl, rfl, fun _ _ => rfl, rfl, rfl⟩

/-- C8 witness: the concrete pair of oracles, one carrying pagination
metadata on page 1 and one not, fetch identically. -/
theorem C8_pagination_metadata_irrelevant_witness :
    fetchRepliesTrace c8pagesA 3 none = fetchRepliesTrace c8pagesB 3 none ∧
    fetch_replies c8pagesA 3 none = fetch_replies c8pagesB 3 none :=
  C8_pagination_metadata_irrelevant c8pagesA c8pagesB 3 none c8pages_equiv

/-- One step of the join accumulator. -/
theorem intercalate_go_cons (acc sep b : String) (rest : List String) :
    String.intercalate.go acc sep (b :: rest) =
      String.intercalate.go (acc ++ sep ++ b) sep rest := rfl

/-- The join accumulator at the end of the list. -/
theorem intercalate_go_nil (acc sep : String) :
    String.intercalate.go acc sep [] = acc := rfl

/-- Characters of a concatenation. -/
theorem toList_append (x y : String) : (x ++ y).toList = x.toList ++ y.toList :=
  String.data_append x y

/-- Stripping a string whose first character is not whitespace keeps
that character in front. -/
theorem pyStrip_head (s : String) (c : Char) (rest : List Char)
    (hs : s.toList = c :: rest) (hc : isPySpace c = false) :
    ∃ t : List Char, pyStrip s = (c :: t).asString := by
  unfold pyStrip
  rw [hs, List.dropWhile_cons]
  simp only [hc, Bool.false_eq_true, if_false]
  rw [show (c :: rest).reverse = rest.reverse ++ [c] by simp]
  rw [List.dropWhile_append]
  by_cases hd : (List.dropWhile isPySpace rest.reverse).isEmpty
  · simp only [hd, if_true]
    rw [List.dropWhile_cons]
    simp only [hc, Bool.false_eq_true, if_false]
    exact ⟨[], by simp⟩
  · simp only [hd, if_false]
    exact ⟨(List.dropWhile isPySpace rest.reverse).reverse, by simp⟩

/-- The joined topic block starts with the letter of its `Title:`
label. -/
theorem exists_head_char (A B C D E : String) :
    ∃ t, (String.intercalate "\n" ["Title: " ++ A, B, C, D, E]).toList = 'T' :: t := by
  rw [show String.intercalate "\n" ["Title: " ++ A, B, C, D, E] =
      "Title: " ++ A ++ "\n" ++ B ++ "\n" ++ C ++ "\n" ++ D ++ "\n" ++ E from by
    simp [String.intercalate, intercalate_go_cons, intercalate_go_nil]]
  refine ⟨("itle: ").toList ++ A.toList ++ ("\n").toList ++ B.toList ++ ("\n").toList ++
    C.toList ++ ("\n").toList ++ D.toList ++ ("\n").toList ++ E.toList, ?_⟩
  simp only [toList_append, List.append_assoc]
  rw [show ("Title: ").toList = 'T' :: ("itle: ").toList from rfl]
  simp

/-- `format_topic` always starts with the `Title:` label's first
letter. -/
theorem format_topic_head (topic : Topic) (mc : Option Int) :
    ∃ t, format_topic topic mc = ('T' :: t).asString := by
  unfold format_topic
  obtain ⟨tl, htl⟩ := exists_head_char
    (pick_first [topic.title.map PyVal.str] "")
    ("Author: " ++ pick_first
      [(topic.member.bind Member.username).map PyVal.str,
       (topic.member.bind Member.name).map PyVal.str,
       (topic.member.map Member.id).map PyVal.int] "")
    ("Node: " ++ pick_first
      [(topic.node.bind Node.title).map PyVal.str,
       (topic.node.bind Node.name).map PyVal.str,
       topic.node_id.map PyVal.int] "")
    ("Created: " ++ pick_first [topic.created.map PyVal.int, topic.created_at.map PyVal.int] "")
    ("Content:\n" ++ truncate (pick_first
      [topic.content.map PyVal.str, topic.content_rendered.map PyVal.str] "") mc)
  exact pyStrip_head _ 'T' tl htl rfl

/-- A formatted topic is never empty and never the `N/A` placeholder. -/
theorem format_topic_ne (topic : Topic) (mc : Option Int) :
    format_topic topic mc ≠ "" ∧ format_topic topic mc ≠ "N/A" := by
  obtain ⟨t, ht⟩ := format_topic_head topic mc
  constructor
  · rw [ht]
    intro h
    have h2 := congrArg String.toList h
    exact List.cons_ne_nil _ _ h2
  · rw [ht]
    intro h
    have h2 := congrArg String.toList h
    have h3 : 'T' :: t = ['N', '/', 'A'] := h2
    injection h3 with h4 _
    exact absurd h4 (by decide)

/-- C7: for a topic with no replies, `build_bundle` produces exactly the
fixed template whose replies slot is the literal `No replies.` and whose
topic slot is the formatted topic itself; the topic section is never the
`N/A` placeholder (title or not, hence in particular for titled
topics). -/
theorem C7_build_bundle (tr : HttpResult) (pages : Nat → HttpResult) (mp : Nat) (topic : Topic)
    (ht : fetch_topic tr = .ok topic)
    (hr : fetch_replies pages mp none = .ok []) :
    build_bundle tr pages mp =
      .ok (pyStrip (String.intercalate "\n\n"
        ["文章内容（主题）:", format_topic topic none, "", "评论:", "No replies."])) ∧
    format_topic topic none ≠ "N/A" ∧ format_topic topic none ≠ "" := by
  have hne := format_topic_ne topic none
  refine ⟨?_, hne.2, hne.1⟩
  simp only [build_bundle, ht, hr]
  rw [show format_replies [] none = "" from rfl]
  rw [show pyOr "" "No replies." = "No replies." from rfl]
  rw [show pyOr (format_topic topic none) "N/A" = format_topic topic none from if_neg hne.1]

/-- C7 witness: a concrete titled topic with an empty first reply page. -/
theorem C7_build_bundle_witness :
    build_bundle c7tr c7pages 1 =
      .ok (pyStrip (String.intercalate "\n\n"
        ["文章内容（主题）:", format_topic c7topic none, "", "评论:", "No replies."])) ∧
    format_topic c7topic none ≠ "N/A" ∧ format_topic c7topic none ≠ "" :=
  C7_build_bundle c7tr c7pages 1 c7topic rfl rfl
